import Mathlib

/-!
Verification development for the ai-calorie-estimator repository.

The repository is a Next.js calorie-estimation app.  The parts embedded here
are the ones the verified properties talk about:

* `src/app/api/estimate-calories/route.ts` — the legacy estimation route
  (zod validation, size limit, Cloudinary upload + OpenAI analysis wrapped in
  a `Promise.race` against a timeout promise);
* `src/app/api/direct-estimate/route.ts` — the direct estimation route
  (no Cloudinary upload, placeholder image URL);
* `src/lib/api.ts` — the browser client `estimateCalories` with its bounded
  retry loop and linear backoff;
* the fallback-chain variant of the client (mobile → direct → legacy
  endpoint order for iOS devices);
* `src/lib/error.ts` — `ApiError`, `formatErrorMessage`, `handleApiError`;
* `src/lib/image-utils.ts` — `compressImage` resolve/reject structure;
* `src/lib/openai.ts` — the data-URI normalization of the image payload.

External collaborators (Cloudinary upload, the OpenAI chat completion, the
axios transport, the browser FileReader/canvas) are modelled as oracles: an
environment record says how each external call resolves or rejects, and the
embedded control flow is translated statement by statement from the source.
JavaScript numbers that the control flow compares are embedded as `Nat`/`Int`
(all comparisons in the source are on integral byte counts and statuses);
the model confidence value is embedded as `Rat`.
-/

/-! ## JavaScript string / truthiness helpers -/

/-- Substring occurrence on character lists: true iff `sub` occurs
(contiguously) in `l`.  Backs `jsIncludes`. -/
def hasSub : List Char → List Char → Bool
  | [], sub => sub.isEmpty
  | c :: rest, sub => sub.isPrefixOf (c :: rest) || hasSub rest sub

/-- JS `String.prototype.includes`. -/
def jsIncludes (s sub : String) : Bool :=
  hasSub s.data sub.data

/-- JS `String.prototype.startsWith`. -/
def jsStartsWith (s pre : String) : Bool :=
  pre.data.isPrefixOf s.data

/-- JS `a || b` where `a` is an optional string field: `undefined` and the
empty string are falsy. -/
def jsOrD (a : Option String) (b : String) : String :=
  match a with
  | some s => if s = "" then b else s
  | none => b

/-! ## Data model (`src/lib/types.ts`, `src/lib/openai.ts`) -/

/-- `FoodItem`: `{ name: string, calories: number, portion: string }`. -/
structure FoodItem where
  name : String
  calories : Int
  portion : String
deriving DecidableEq, Repr

/-- `CalorieEstimationResult` (`src/lib/openai.ts`): the JSON object parsed
from the vision model answer.  The routes cast it without validating, so the
fields here range over arbitrary values. -/
structure CalorieEstimationResult where
  calories : Int
  foodItems : List FoodItem
  confidence : Rat
deriving DecidableEq, Repr

/-- `CalorieEstimation`: the estimation result plus the resolved image URL. -/
structure CalorieEstimation where
  calories : Int
  foodItems : List FoodItem
  confidence : Rat
  imageUrl : String
deriving DecidableEq, Repr

/-- Structural validity of a `CalorieEstimation` as the spec states it:
numeric calories ≥ 0, confidence in [0,1], non-empty foodItems, non-empty
imageUrl. -/
def validCalorieEstimation (c : CalorieEstimation) : Prop :=
  0 ≤ c.calories ∧ 0 ≤ c.confidence ∧ c.confidence ≤ 1 ∧
    c.foodItems ≠ [] ∧ c.imageUrl ≠ ""

instance (c : CalorieEstimation) : Decidable (validCalorieEstimation c) := by
  unfold validCalorieEstimation
  infer_instance

/-- Schema validity of the parsed vision-model JSON (before an image URL is
attached). -/
def validEstimationResult (r : CalorieEstimationResult) : Prop :=
  0 ≤ r.calories ∧ 0 ≤ r.confidence ∧ r.confidence ≤ 1 ∧ r.foodItems ≠ []

/-! ## The estimate-calories route (`src/app/api/estimate-calories/route.ts`) -/

/-- `MAX_IMAGE_SIZE = 5 * 1024 * 1024` bytes. -/
def MAX_IMAGE_SIZE : Nat := 5 * 1024 * 1024

/-- `Math.ceil(image.length * 0.75)`: the route estimates the decoded binary
size from the base64 length.  `len * 0.75 = 3*len/4` is exact in binary
floating point for any realistic length, so the ceiling is `⌈3*len/4⌉`. -/
def estimatedBinarySize (len : Nat) : Nat :=
  (3 * len + 3) / 4

/-- How the external calls of one request resolve: the Cloudinary upload
(`uploadImage`), the OpenAI analysis (`estimateCaloriesFromImage`), and
whether the 90s timeout promise won the `Promise.race`. -/
structure RouteEnv where
  upload : Except String String
  vision : Except String CalorieEstimationResult
  timedOut : Bool

/-- The catch block of `processImageAndEstimateCalories`: errors whose
message mentions Cloudinary / OpenAI are rethrown with a source prefix. -/
def reclassifyError (m : String) : String :=
  if jsIncludes m "Cloudinary" then "Image upload failed: " ++ m
  else if jsIncludes m "OpenAI" then "AI analysis failed: " ++ m
  else m

/-- `processImageAndEstimateCalories`: upload to Cloudinary, then analyze
with OpenAI, then wrap the parsed result together with the uploaded URL in a
success envelope; collaborator errors are rethrown with a source prefix. -/
def processImageAndEstimateCalories (env : RouteEnv) :
    Except String CalorieEstimation :=
  match env.upload with
  | .error m => .error (reclassifyError m)
  | .ok imageUrl =>
    match env.vision with
    | .error m => .error (reclassifyError m)
    | .ok r => .ok ⟨r.calories, r.foodItems, r.confidence, imageUrl⟩

/-- The zod failure message for an empty image (`"Image is required"`,
wrapped by the route as `"Invalid request: " + message`; zod serializes the
issue list, whose exact text no property depends on). -/
def zodEmptyImageMessage : String := "Invalid request: Image is required"

/-- The 413 message: `Image too large. Maximum size is 5MB.` -/
def sizeLimitMessage : String := "Image too large. Maximum size is 5MB."

/-- The message of the catch block around the `Promise.race`. -/
def routeTimeoutMessage : String :=
  "Request timed out. This may be due to a slow connection or heavy server load."

/-- The response of the estimate-calories route, with two observer fields
recording whether the Cloudinary / OpenAI collaborators were invoked. -/
structure RouteResponse where
  status : Nat
  success : Bool
  error : Option String
  data : Option CalorieEstimation
  calledUpload : Bool
  calledVision : Bool
deriving DecidableEq, Repr

/-- Whether the upload oracle resolved (the OpenAI call is only reached after
a successful upload). -/
def uploadOk (env : RouteEnv) : Bool :=
  match env.upload with
  | .ok _ => true
  | .error _ => false

/-- `POST` of `src/app/api/estimate-calories/route.ts` after a successful
body parse: zod validation (non-empty image), size limit, then
`Promise.race([processImageAndEstimateCalories(image), timeout(90000)])`
whose rejection — from either racer — is answered by the
`catch (timeoutError)` block with a 408. -/
def estimateCaloriesPOST (image : String) (env : RouteEnv) : RouteResponse :=
  if image.length = 0 then
    ⟨400, false, some zodEmptyImageMessage, none, false, false⟩
  else if MAX_IMAGE_SIZE < estimatedBinarySize image.length then
    ⟨413, false, some sizeLimitMessage, none, false, false⟩
  else
    let raced : Except String CalorieEstimation :=
      if env.timedOut then .error "Request timed out after 90000ms"
      else processImageAndEstimateCalories env
    match raced with
    | .ok d => ⟨200, true, none, some d, true, uploadOk env⟩
    | .error _ => ⟨408, false, some routeTimeoutMessage, none, true, uploadOk env⟩

/-! ## The direct-estimate route (`src/app/api/direct-estimate/route.ts`) -/

/-- Environment of one direct-estimate request: whether the OpenAI key is
configured, device sniffing results (they pick the timeout length), whether
the JSON body parsed, the OpenAI oracle, and the timeout race outcome. -/
structure DirectEnv where
  apiKeySet : Bool
  isIOS : Bool
  isAndroid : Bool
  jsonParseOk : Bool
  vision : Except String CalorieEstimationResult
  timedOut : Bool

/-- The placeholder URL used because the direct route skips Cloudinary. -/
def directPlaceholderUrl : String :=
  "https://placehold.co/600x400?text=Image+Analyzed+Directly"

/-- `processDirectEstimation`: OpenAI analysis on the inline base64 data,
wrapped with the placeholder URL; OpenAI errors rethrown with a prefix. -/
def processDirectEstimation (vision : Except String CalorieEstimationResult) :
    Except String CalorieEstimation :=
  match vision with
  | .error m =>
    .error (if jsIncludes m "OpenAI" then "AI analysis failed: " ++ m else m)
  | .ok r => .ok ⟨r.calories, r.foodItems, r.confidence, directPlaceholderUrl⟩

/-- Response of the direct route, with an observer for the OpenAI call. -/
structure DirectResponse where
  status : Nat
  success : Bool
  error : Option String
  data : Option CalorieEstimation
  calledVision : Bool
deriving DecidableEq, Repr

/-- 400 message of the direct route for an unparsable body on iOS. -/
def iosParseErrorMessage : String :=
  "Unable to read image data from your iOS device. Try using WiFi, check your browser privacy settings, or try a different browser like Safari."

/-- 400 message of the direct route for an unparsable body elsewhere. -/
def plainParseErrorMessage : String :=
  "Invalid JSON in request body. Make sure the Content-Type is application/json."

/-- 408 message of the direct route. -/
def directTimeoutMessage : String :=
  "Request timed out. This may be due to a slow connection or heavy server load. Try with smaller images or WiFi. For mobile devices, try taking a picture with better lighting or using an existing image from your gallery."

/-- `POST` of `src/app/api/direct-estimate/route.ts`: API-key check, body
parse, zod validation, size limit, then
`Promise.race([processDirectEstimation(image), timeout(timeoutMs)])` whose
rejection is answered by the `catch (timeoutError)` block with a 408.
The device sniffing only picks `timeoutMs` (150s iOS / 180s Android / 90s
desktop) and so does not show up in the response beyond the race outcome. -/
def directEstimatePOST (image : String) (env : DirectEnv) : DirectResponse :=
  if env.apiKeySet = false then
    ⟨500, false, some "OpenAI API key not configured on the server", none, false⟩
  else if env.jsonParseOk = false then
    ⟨400, false,
      some (if env.isIOS then iosParseErrorMessage else plainParseErrorMessage),
      none, false⟩
  else if image.length = 0 then
    ⟨400, false, some zodEmptyImageMessage, none, false⟩
  else if MAX_IMAGE_SIZE < estimatedBinarySize image.length then
    ⟨413, false, some sizeLimitMessage, none, false⟩
  else
    let raced : Except String CalorieEstimation :=
      if env.timedOut then .error "Request timed out"
      else processDirectEstimation env.vision
    match raced with
    | .ok d => ⟨200, true, none, some d, true⟩
    | .error _ => ⟨408, false, some directTimeoutMessage, none, true⟩

/-! ## The browser client (`src/lib/api.ts`) -/

/-- The `{success, data?, error?}` envelope as the client receives it. -/
structure Envelope where
  success : Bool
  data : Option CalorieEstimation
  error : Option String
deriving DecidableEq, Repr

/-- How one `api.post` call resolves, as axios presents it to the caller:
a 2xx response with an envelope, a definite HTTP error response
(`error.response` set), the transport timeout (`error.code ===
'ECONNABORTED'`), or no response at all. -/
inductive TransportOutcome where
  | httpOk (resp : Envelope) (status : Nat)
  | httpError (status : Nat) (respError : Option String) (message : String)
  | timeoutErr
  | noResponse
deriving DecidableEq, Repr

/-- The retry guard of the catch block:
`axios.isAxiosError(error) && (!error.response || error.code === 'ECONNABORTED')`. -/
def retryable : TransportOutcome → Bool
  | .timeoutErr => true
  | .noResponse => true
  | _ => false

/-- What one call to the client `estimateCalories` produces: a result, a
thrown `ApiError`, or the trailing
`throw new ApiError('Maximum retry attempts exceeded', 0)` placed after the
while loop (kept as its own constructor so its reachability can be stated). -/
inductive ClientResult where
  | ok (d : CalorieEstimation)
  | apiErr (message : String) (statusCode : Nat)
  | maxRetriesThrow
deriving DecidableEq, Repr

/-- `MAX_RETRIES = 2` in `src/lib/api.ts`. -/
def MAX_RETRIES : Nat := 2

/-- The fixed 408 message (the axios timeout is 60000 ms). -/
def clientTimeoutMessage : String :=
  "The request timed out after 60000ms. This may be due to a slow mobile connection or a large image file."

/-- The fixed no-response message. -/
def clientNoConnectMessage : String :=
  "Could not connect to the server. This may be due to a weak mobile signal or network issues. Please try again on WiFi if possible."

/-- What the loop body does with an outcome once it will not retry it:
a good envelope returns its data; a bad envelope throws
`ApiError(response.data.error || 'Failed to estimate calories',
response.status)` (rethrown unchanged by the catch since an `ApiError` is not
an axios error); a definite HTTP error throws
`ApiError(error.response?.data?.error || error.message || 'Network error',
error.response?.status || 500)`; the timeout and no-response cases throw
their fixed messages with 408 / 0. -/
def finalResult : TransportOutcome → ClientResult
  | .httpOk resp status =>
    match resp.data with
    | some d =>
      if resp.success then .ok d
      else .apiErr (jsOrD resp.error "Failed to estimate calories") status
    | none => .apiErr (jsOrD resp.error "Failed to estimate calories") status
  | .httpError status respError message =>
    .apiErr (jsOrD respError (jsOrD (some message) "Network error"))
      (if status = 0 then 500 else status)
  | .timeoutErr => .apiErr clientTimeoutMessage 408
  | .noResponse => .apiErr clientNoConnectMessage 0

/-- The `while (attempt <= MAX_RETRIES)` loop of `estimateCalories`.
`outcomes n` is how the single `api.post('/estimate-calories', …)` of
attempt `n` resolves.  On a retryable error with budget left the code does
`attempt++`, sleeps `attempt * 2000` ms and continues; the returned list
collects those inserted delays in order.  The fuel counts the loop
iterations still permitted by the loop condition; running out of fuel is
exactly reaching the trailing throw after the loop. -/
def clientLoop (outcomes : Nat → TransportOutcome) :
    Nat → Nat → ClientResult × List Nat
  | 0, _ => (.maxRetriesThrow, [])
  | fuel + 1, attempt =>
    let o := outcomes attempt
    if retryable o = true ∧ attempt < MAX_RETRIES then
      let step := clientLoop outcomes fuel (attempt + 1)
      (step.1, (attempt + 1) * 2000 :: step.2)
    else
      (finalResult o, [])

/-- `estimateCalories` of `src/lib/api.ts`: the loop entered at
`attempt = 0`, whose condition admits `MAX_RETRIES + 1` iterations. -/
def estimateCaloriesClient (outcomes : Nat → TransportOutcome) :
    ClientResult × List Nat :=
  clientLoop outcomes (MAX_RETRIES + 1) 0

/-! ## The fallback-chain client variant (unnamed source, `estimateCalories`
with the mobile → direct → legacy endpoint order) -/

/-- The three candidate endpoints of one attempt of the chain variant. -/
inductive Endpoint where
  | mobileEstimate
  | directEstimate
  | estimateCaloriesEp
deriving DecidableEq, Repr

/-- The first-success test applied to each candidate response:
`response.data.success && response.data.data`. -/
def succOf : TransportOutcome → Option CalorieEstimation
  | .httpOk resp _ =>
    match resp.data with
    | some d => if resp.success then some d else none
    | none => none
  | _ => none

/-- Outcome of one attempt of the chain: a returned estimation, or the error
escaping to the outer catch — which is always produced from the legacy
endpoint outcome, because the mobile and direct try blocks swallow every
failure and fall through to the next candidate. -/
inductive ChainResult where
  | success (d : CalorieEstimation)
  | failure (legacy : TransportOutcome)
deriving DecidableEq, Repr

/-- Per-attempt environment of the chain variant: the device class and how
each candidate endpoint would resolve if requested. -/
structure ChainEnv where
  isIOS : Bool
  mobile : TransportOutcome
  direct : TransportOutcome
  legacy : TransportOutcome
deriving Repr

/-- The direct-then-legacy tail of the chain: try `/api/direct-estimate`,
and on any failure fall back to `/api/estimate-calories`.  `visited` holds
the endpoints already requested; the returned list records every endpoint
requested, in order. -/
def tryDirectThenLegacy (direct legacy : TransportOutcome)
    (visited : List Endpoint) : ChainResult × List Endpoint :=
  match succOf direct with
  | some d => (.success d, visited ++ [.directEstimate])
  | none =>
    match succOf legacy with
    | some d => (.success d, visited ++ [.directEstimate, .estimateCaloriesEp])
    | none => (.failure legacy, visited ++ [.directEstimate, .estimateCaloriesEp])

/-- One attempt of the chain variant: for iOS devices try
`/api/mobile-estimate` first (its try block catches every failure and falls
through), then the direct endpoint, then the legacy endpoint. -/
def attemptChain (env : ChainEnv) : ChainResult × List Endpoint :=
  if env.isIOS then
    match succOf env.mobile with
    | some d => (.success d, [.mobileEstimate])
    | none => tryDirectThenLegacy env.direct env.legacy [.mobileEstimate]
  else
    tryDirectThenLegacy env.direct env.legacy []

/-! ## The client error helpers (`src/lib/error.ts`) -/

/-- The values a JS catch can observe in this code base: an `ApiError`, a
plain `Error`, a thrown string, or any other value. -/
inductive JsError where
  | apiError (message : String) (statusCode : Nat)
  | plainError (message : String)
  | stringError (s : String)
  | otherValue
deriving DecidableEq, Repr

/-- `formatErrorMessage`. -/
def formatErrorMessage : JsError → String
  | .apiError m st => "Error (" ++ toString st ++ "): " ++ m
  | .plainError m => m
  | .stringError s => s
  | .otherValue => "An unexpected error occurred"

/-- `handleApiError`: run the wrapped computation, and return
`{data, error: null}` on success and `{data: null, error: formatted}` on any
thrown value — it never rethrows. -/
def handleApiError {T : Type} (fn : Except JsError T) :
    Option T × Option String :=
  match fn with
  | .ok d => (some d, none)
  | .error e => (none, some (formatErrorMessage e))

/-! ## `compressImage` (`src/lib/image-utils.ts`) -/

/-- Environment of one `compressImage` call: the file and image metrics the
branches test, and how each browser primitive resolves.  `original` is the
data URL produced by reading the file (`event.target.result` /
`fileToBase64`), `compressed` the canvas `toDataURL` output. -/
structure CompressEnv where
  fileSize : Nat
  imgWidth : Nat
  isIOS : Bool
  isMobile : Bool
  readOk : Bool
  imgDecodes : Bool
  canvasCtxOk : Bool
  canvasOpsOk : Bool
  fallbackReadOk : Bool
  original : String
  compressed : String
deriving Repr

/-- `compressImage(file, maxWidth = 800, quality = 0.8)` of
`src/lib/image-utils.ts`, resolve/reject structure:

* a failing file read rejects (`reader.onerror`);
* a failing image decode (`img.onerror`) falls back to `fileToBase64(file)`,
  resolving with the original encoding when that read works and rejecting
  otherwise (`.then(resolve).catch(reject)`);
* a small non-mobile image skips compression and resolves with the original;
* an unavailable canvas context throws `'Could not get canvas context'`
  inside the inner try, whose catch resolves with the original;
* failing canvas operations are caught by the same catch and resolve with
  the original;
* otherwise the canvas JPEG encoding is resolved.

The device-class clamping of `maxWidth` (≤500 iOS, ≤600 mobile) decides the
skip-compression test; the `quality` adjustments only parameterize the
JPEG encoder, whose output is the oracle `env.compressed`.  The iOS 3-second
watchdog that resolves the original when the decode has not completed is a
real-time race and is outside this deterministic model. -/
def compressImage (env : CompressEnv) (maxWidth0 : Nat) (quality0 : Rat) :
    Except JsError String :=
  let maxWidth :=
    if env.isIOS then min maxWidth0 500
    else if env.isMobile then min maxWidth0 600
    else maxWidth0
  let _quality :=
    if env.isIOS then min quality0 (6/10)
    else if env.isMobile then min quality0 (7/10)
    else quality0
  if env.readOk = false then
    .error (.plainError "Error reading file")
  else if env.imgDecodes = false then
    if env.fallbackReadOk then .ok env.original
    else .error (.plainError "Error reading file")
  else if env.imgWidth ≤ maxWidth ∧ env.fileSize < 300000 ∧ env.isMobile = false then
    .ok env.original
  else if env.canvasCtxOk = false then
    .ok env.original
  else if env.canvasOpsOk = false then
    .ok env.original
  else
    .ok env.compressed

/-! ## Data-URI normalization (`src/lib/openai.ts`, also inlined verbatim in
the mobile-estimate route) -/

/-- A regex word character (`\w`). -/
def wordChar (c : Char) : Bool :=
  c.isAlphanum || c = '_'

/-- Length of the match of `/^data:image\/\w+;base64,/` against `s`, when it
matches. -/
def dataUriMatchLen (s : String) : Option Nat :=
  if jsStartsWith s "data:image/" then
    let rest := s.data.drop 11
    let w := rest.takeWhile wordChar
    if 0 < w.length ∧ (";base64,".data.isPrefixOf (rest.drop w.length)) then
      some (11 + w.length + 8)
    else none
  else none

/-- `s.replace(/^data:image\/\w+;base64,/, '')`. -/
def jsStripDataUri (s : String) : String :=
  match dataUriMatchLen s with
  | some n => ⟨s.data.drop n⟩
  | none => s

/-- The normalization in `estimateCaloriesFromBase64` (and, verbatim, in the
mobile-estimate route):
`base64Image.startsWith('data:image/') ? base64Image :
 'data:image/jpeg;base64,' + base64Image.replace(/^data:image\/\w+;base64,/, '')`. -/
def normalizeImageData (s : String) : String :=
  if jsStartsWith s "data:image/" then s
  else "data:image/jpeg;base64," ++ jsStripDataUri s

/-! ## Shared sample values and helper lemmas -/

/-- The sample food item of the spec test vector. -/
def sampleItem : FoodItem := ⟨"Test Food Item", 450, "1 serving"⟩

/-- A schema-valid parsed vision result. -/
def sampleResult : CalorieEstimationResult := ⟨450, [sampleItem], 4/5⟩

/-- A route environment where both collaborators resolve and no timeout. -/
def sampleEnv : RouteEnv :=
  ⟨.ok "https://res.cloudinary.com/demo/food.jpg", .ok sampleResult, false⟩

/-- A direct-route environment with the key set and a resolving OpenAI. -/
def sampleDirectEnv : DirectEnv := ⟨true, false, false, true, .ok sampleResult, false⟩

/-- A base64 payload of 6990507 characters: its estimated decoded size,
`⌈3·6990507/4⌉ = 5242881`, exceeds `MAX_IMAGE_SIZE = 5242880`. -/
def bigImage : String := ⟨List.replicate 6990507 'a'⟩

theorem bigImage_length : bigImage.length = 6990507 := by
  have h : bigImage.length = (List.replicate 6990507 'a').length := rfl
  rw [h, List.length_replicate]

/-- One-step unfolding of the retry loop. -/
theorem clientLoop_succ (outcomes : Nat → TransportOutcome)
    (fuel attempt : Nat) :
    clientLoop outcomes (fuel + 1) attempt =
      if retryable (outcomes attempt) = true ∧ attempt < MAX_RETRIES then
        ((clientLoop outcomes fuel (attempt + 1)).1,
          (attempt + 1) * 2000 :: (clientLoop outcomes fuel (attempt + 1)).2)
      else (finalResult (outcomes attempt), []) := by
  rfl

/-- Closed form of the client call: at most two retries, both caused by a
retryable outcome, with delays 2000 then 4000 ms. -/
theorem estimateCaloriesClient_eq (outcomes : Nat → TransportOutcome) :
    estimateCaloriesClient outcomes =
      if retryable (outcomes 0) = true then
        if retryable (outcomes 1) = true then
          (finalResult (outcomes 2), [2000, 4000])
        else (finalResult (outcomes 1), [2000])
      else (finalResult (outcomes 0), []) := by
  by_cases h0 : retryable (outcomes 0) = true <;>
    by_cases h1 : retryable (outcomes 1) = true <;>
      simp [estimateCaloriesClient, clientLoop_succ, h0, h1, MAX_RETRIES]

/-- `finalResult` is never the trailing throw. -/
theorem finalResult_ne_maxRetriesThrow (o : TransportOutcome) :
    finalResult o ≠ ClientResult.maxRetriesThrow := by
  cases o with
  | httpOk resp status =>
    cases hd : resp.data <;> cases hs : resp.success <;>
      simp [finalResult, hd, hs]
  | httpError status respError message => simp [finalResult]
  | timeoutErr => simp [finalResult]
  | noResponse => simp [finalResult]

/-! ## Claim theorems -/

/-- C3: when the first attempt gets a definite HTTP error response (server
responded, not a transport timeout), the client throws a typed `ApiError`
built from that response immediately — with no retry and no backoff delay;
and every backoff delay that is ever inserted is caused by a retryable
outcome (no HTTP response, or the transport timeout `ECONNABORTED`). -/
theorem httpError_no_retry (outcomes : Nat → TransportOutcome)
    (st : Nat) (ed : Option String) (m : String) :
    (outcomes 0 = .httpError st ed m →
      estimateCaloriesClient outcomes =
        (.apiErr (jsOrD ed (jsOrD (some m) "Network error"))
          (if st = 0 then 500 else st), [])) ∧
    (∀ i, i < ((estimateCaloriesClient outcomes).2).length →
      retryable (outcomes i) = true) := by
  constructor
  · intro h
    rw [estimateCaloriesClient_eq]
    simp [h, retryable, finalResult]
  · intro i hi
    rw [estimateCaloriesClient_eq] at hi
    by_cases h0 : retryable (outcomes 0) = true
    · by_cases h1 : retryable (outcomes 1) = true
      · simp [h0, h1] at hi
        interval_cases i
        · exact h0
        · exact h1
      · simp [h0, h1, Nat.lt_one_iff] at hi
        subst hi
        exact h0
    · simp [h0] at hi

/-- C3 witness: a 503 with a server-reported message is surfaced at once
with no delays; and a delay list produced by pure timeouts stems from
retryable outcomes. -/
theorem httpError_no_retry_witness :
    estimateCaloriesClient
        (fun _ => .httpError 503 (some "Server error") "Request failed") =
      (.apiErr "Server error" 503, []) ∧
    retryable ((fun _ => TransportOutcome.timeoutErr) 0) = true := by
  constructor
  · have h := (httpError_no_retry
      (fun _ => .httpError 503 (some "Server error") "Request failed")
      503 (some "Server error") "Request failed").1 rfl
    rw [h]
    rfl
  · exact (httpError_no_retry (fun _ => TransportOutcome.timeoutErr)
      0 none "").2 0 (by decide)

/-- C4: the backoff delay inserted before retry attempt `k` (k = 1, 2) is
`k * 2000` ms, so the delays of one call are strictly increasing and linear
in the attempt number. -/
theorem linear_backoff (outcomes : Nat → TransportOutcome) :
    (∀ i, i < ((estimateCaloriesClient outcomes).2).length →
      ((estimateCaloriesClient outcomes).2)[i]? = some ((i + 1) * 2000)) ∧
    (∀ (i j di dj : Nat), ((estimateCaloriesClient outcomes).2)[i]? = some di →
      ((estimateCaloriesClient outcomes).2)[j]? = some dj → i < j →
      di < dj) := by
  have hval : ∀ i, i < ((estimateCaloriesClient outcomes).2).length →
      ((estimateCaloriesClient outcomes).2)[i]? = some ((i + 1) * 2000) := by
    intro i hi
    rw [estimateCaloriesClient_eq] at hi ⊢
    by_cases h0 : retryable (outcomes 0) = true
    · by_cases h1 : retryable (outcomes 1) = true
      · simp only [h0, h1, if_true] at hi ⊢
        simp at hi
        interval_cases i <;> simp
      · simp only [h0, h1, if_true, if_false] at hi ⊢
        simp [Nat.lt_one_iff] at hi
        subst hi
        simp
    · simp [h0] at hi
  refine ⟨hval, ?_⟩
  intro i j di dj hdi hdj hij
  obtain ⟨hi, -⟩ := List.getElem?_eq_some_iff.mp hdi
  obtain ⟨hj, -⟩ := List.getElem?_eq_some_iff.mp hdj
  have e1 := hval i hi
  have e2 := hval j hj
  rw [hdi] at e1
  rw [hdj] at e2
  have d1 : di = (i + 1) * 2000 := Option.some.inj e1
  have d2 : dj = (j + 1) * 2000 := Option.some.inj e2
  subst d1
  subst d2
  omega

/-- C4 witness: with every attempt timing out, the first inserted delay is
2000 ms and the delays increase. -/
theorem linear_backoff_witness :
    ((estimateCaloriesClient fun _ => TransportOutcome.timeoutErr).2)[0]? =
      some 2000 ∧
    (2000 : Nat) < 4000 := by
  constructor
  · have h := (linear_backoff (fun _ => TransportOutcome.timeoutErr)).1 0
      (by decide)
    simpa using h
  · exact (linear_backoff (fun _ => TransportOutcome.timeoutErr)).2 0 1
      2000 4000 (by decide) (by decide) (by decide)

/-- The loop body always produces a return or an `ApiError` throw. -/
theorem finalResult_shape (o : TransportOutcome) :
    (∃ d, finalResult o = ClientResult.ok d) ∨
    (∃ m st, finalResult o = ClientResult.apiErr m st) := by
  cases o with
  | httpOk resp status =>
    rcases hd : resp.data with _ | d
    · right
      exact ⟨jsOrD resp.error "Failed to estimate calories", status,
        by simp [finalResult, hd]⟩
    · cases hs : resp.success
      · right
        exact ⟨jsOrD resp.error "Failed to estimate calories", status,
          by simp [finalResult, hd, hs]⟩
      · left
        exact ⟨d, by simp [finalResult, hd, hs]⟩
  | httpError status respError message => exact Or.inr ⟨_, _, rfl⟩
  | timeoutErr => exact Or.inr ⟨_, _, rfl⟩
  | noResponse => exact Or.inr ⟨_, _, rfl⟩

/-- C9: for every sequence of transport outcomes the client call terminates
with a returned result or an `ApiError` thrown from inside the loop body —
the result is never `maxRetriesThrow`, i.e. the trailing
`throw new ApiError` placed after the while loop is unreachable (the
disjunction covers two of the three `ClientResult` constructors and so
excludes the third). -/
theorem trailing_throw_unreachable (outcomes : Nat → TransportOutcome) :
    (∃ d, (estimateCaloriesClient outcomes).1 = ClientResult.ok d) ∨
    (∃ m st, (estimateCaloriesClient outcomes).1 =
      ClientResult.apiErr m st) := by
  rw [estimateCaloriesClient_eq]
  by_cases h0 : retryable (outcomes 0) = true
  · by_cases h1 : retryable (outcomes 1) = true
    · simpa [h0, h1] using finalResult_shape (outcomes 2)
    · simpa [h0, h1] using finalResult_shape (outcomes 1)
  · simpa [h0] using finalResult_shape (outcomes 0)

/-- C1: an empty image is answered 400 and an oversized image
(estimated decoded size `⌈len·0.75⌉` above 5MB) is answered 413 with the
size message, by both estimation routes, with `success:false` and without
invoking the image-hosting or vision collaborator (the direct route first
needs its API key configured and a parsed body to reach validation). -/
theorem validation_rejects_before_collaborators
    (image : String) (env : RouteEnv) (denv : DirectEnv) :
    (image.length = 0 →
      estimateCaloriesPOST image env =
        ⟨400, false, some zodEmptyImageMessage, none, false, false⟩) ∧
    (MAX_IMAGE_SIZE < estimatedBinarySize image.length →
      estimateCaloriesPOST image env =
        ⟨413, false, some sizeLimitMessage, none, false, false⟩) ∧
    (denv.apiKeySet = true → denv.jsonParseOk = true → image.length = 0 →
      directEstimatePOST image denv =
        ⟨400, false, some zodEmptyImageMessage, none, false⟩) ∧
    (denv.apiKeySet = true → denv.jsonParseOk = true →
      MAX_IMAGE_SIZE < estimatedBinarySize image.length →
      directEstimatePOST image denv =
        ⟨413, false, some sizeLimitMessage, none, false⟩) := by
  have hsize : MAX_IMAGE_SIZE < estimatedBinarySize image.length →
      image.length ≠ 0 := by
    intro h h0
    rw [h0] at h
    simp [estimatedBinarySize, MAX_IMAGE_SIZE] at h
  refine ⟨?_, ?_, ?_, ?_⟩
  · intro h
    simp [estimateCaloriesPOST, h]
  · intro h
    simp [estimateCaloriesPOST, hsize h, h]
  · intro hk hp h
    simp [directEstimatePOST, hk, hp, h]
  · intro hk hp h
    simp [directEstimatePOST, hk, hp, hsize h, h]

/-- C1 witness: the empty string and a 6990507-character payload exercise
both rejection branches of both routes. -/
theorem validation_rejects_witness :
    estimateCaloriesPOST "" sampleEnv =
      ⟨400, false, some zodEmptyImageMessage, none, false, false⟩ ∧
    estimateCaloriesPOST bigImage sampleEnv =
      ⟨413, false, some sizeLimitMessage, none, false, false⟩ ∧
    directEstimatePOST "" sampleDirectEnv =
      ⟨400, false, some zodEmptyImageMessage, none, false⟩ ∧
    directEstimatePOST bigImage sampleDirectEnv =
      ⟨413, false, some sizeLimitMessage, none, false⟩ := by
  have hbig : MAX_IMAGE_SIZE < estimatedBinarySize bigImage.length := by
    rw [bigImage_length]
    decide
  refine ⟨?_, ?_, ?_, ?_⟩
  · exact (validation_rejects_before_collaborators "" sampleEnv
      sampleDirectEnv).1 rfl
  · exact (validation_rejects_before_collaborators bigImage sampleEnv
      sampleDirectEnv).2.1 hbig
  · exact (validation_rejects_before_collaborators "" sampleEnv
      sampleDirectEnv).2.2.1 rfl rfl rfl
  · exact (validation_rejects_before_collaborators bigImage sampleEnv
      sampleDirectEnv).2.2.2 rfl rfl hbig

/-- A request whose Cloudinary upload rejects with a configuration error
while the timeout race does not fire. -/
def cloudErrEnv : RouteEnv :=
  ⟨.error "Cloudinary configuration error", .ok sampleResult, false⟩

/-- C2: the code maps a non-timeout collaborator error to 408.  The
`catch (timeoutError)` block around the `Promise.race` catches the rejection
of `processImageAndEstimateCalories` itself, so a Cloudinary failure with no
timeout is answered 408 with the generic timeout message — the
source-prefixed message the helper built (second conjunct) is discarded and
the 500 path is never reached for collaborator errors. -/
theorem collaborator_error_mapped_to_408 :
    estimateCaloriesPOST "img" cloudErrEnv =
      ⟨408, false, some routeTimeoutMessage, none, true, false⟩ ∧
    reclassifyError "Cloudinary configuration error" =
      "Image upload failed: Cloudinary configuration error" := by
  constructor
  · rfl
  · rfl

/-- A fully valid estimation as the chain client returns it. -/
def sampleEstimation : CalorieEstimation :=
  ⟨450, [sampleItem], 4/5, "https://res.cloudinary.com/demo/food.jpg"⟩

/-- A 200 response whose envelope is a populated success. -/
def okOutcome : TransportOutcome :=
  .httpOk ⟨true, some sampleEstimation, none⟩ 200

/-- C5: within one attempt the chain client requests the candidates in the
fixed order mobile (iOS only) → direct → legacy, returns the first
populated-success envelope immediately, and issues no request to any later
candidate. -/
theorem chain_first_success (env : ChainEnv) (d : CalorieEstimation) :
    (env.isIOS = true → succOf env.mobile = some d →
      attemptChain env = (.success d, [.mobileEstimate])) ∧
    (env.isIOS = true → succOf env.mobile = none →
      succOf env.direct = some d →
      attemptChain env = (.success d, [.mobileEstimate, .directEstimate])) ∧
    (env.isIOS = false → succOf env.direct = some d →
      attemptChain env = (.success d, [.directEstimate])) ∧
    (env.isIOS = true → succOf env.mobile = none → succOf env.direct = none →
      succOf env.legacy = some d →
      attemptChain env =
        (.success d,
          [.mobileEstimate, .directEstimate, .estimateCaloriesEp])) ∧
    (env.isIOS = false → succOf env.direct = none →
      succOf env.legacy = some d →
      attemptChain env =
        (.success d, [.directEstimate, .estimateCaloriesEp])) := by
  refine ⟨?_, ?_, ?_, ?_, ?_⟩
  · intro hi hm
    simp [attemptChain, hi, hm]
  · intro hi hm hd
    simp [attemptChain, tryDirectThenLegacy, hi, hm, hd]
  · intro hi hd
    simp [attemptChain, tryDirectThenLegacy, hi, hd]
  · intro hi hm hd hl
    simp [attemptChain, tryDirectThenLegacy, hi, hm, hd, hl]
  · intro hi hd hl
    simp [attemptChain, tryDirectThenLegacy, hi, hd, hl]

/-- C5 witness: a succeeding mobile endpoint on iOS is the only request; a
succeeding direct endpoint off iOS is the only request; with both earlier
candidates failing, the legacy endpoint is reached third. -/
theorem chain_first_success_witness :
    attemptChain ⟨true, okOutcome, .noResponse, .noResponse⟩ =
      (.success sampleEstimation, [.mobileEstimate]) ∧
    attemptChain ⟨false, .noResponse, okOutcome, .noResponse⟩ =
      (.success sampleEstimation, [.directEstimate]) ∧
    attemptChain ⟨true, .noResponse, .noResponse, okOutcome⟩ =
      (.success sampleEstimation,
        [.mobileEstimate, .directEstimate, .estimateCaloriesEp]) := by
  refine ⟨?_, ?_, ?_⟩
  · exact (chain_first_success _ sampleEstimation).1 rfl rfl
  · exact (chain_first_success _ sampleEstimation).2.2.1 rfl rfl
  · exact (chain_first_success _ sampleEstimation).2.2.2.1 rfl rfl rfl rfl

/-- Exclusivity of a `{success, data?, error?}` envelope: a success carries
populated data and no error; a failure carries an error and no data. -/
def exclusiveEnvelope (success : Bool) (data : Option CalorieEstimation)
    (error : Option String) : Prop :=
  (success = true ∧ data.isSome = true ∧ error = none) ∨
  (success = false ∧ error.isSome = true ∧ data = none)

/-- C7: every envelope produced by the system is exclusively success or
failure, and the client-side `handleApiError` wrapper never rethrows — for
every run it returns a pair with exactly one of data and error null. -/
theorem envelope_exclusive (r : Except JsError CalorieEstimation)
    (image : String) (env : RouteEnv) (denv : DirectEnv) :
    (((handleApiError r).1.isSome = true ∧ (handleApiError r).2 = none) ∨
      ((handleApiError r).1 = none ∧ (handleApiError r).2.isSome = true)) ∧
    exclusiveEnvelope (estimateCaloriesPOST image env).success
      (estimateCaloriesPOST image env).data
      (estimateCaloriesPOST image env).error ∧
    exclusiveEnvelope (directEstimatePOST image denv).success
      (directEstimatePOST image denv).data
      (directEstimatePOST image denv).error := by
  refine ⟨?_, ?_, ?_⟩
  · cases r <;> simp [handleApiError]
  · by_cases h1 : image.length = 0
    · simp [estimateCaloriesPOST, h1, exclusiveEnvelope]
    by_cases h2 : MAX_IMAGE_SIZE < estimatedBinarySize image.length
    · simp [estimateCaloriesPOST, h1, h2, exclusiveEnvelope]
    by_cases ht : env.timedOut = true
    · simp [estimateCaloriesPOST, h1, h2, ht, exclusiveEnvelope]
    cases hu : env.upload with
    | error m =>
      simp [estimateCaloriesPOST, processImageAndEstimateCalories, h1, h2,
        ht, hu, exclusiveEnvelope]
    | ok url =>
      cases hv : env.vision with
      | error m =>
        simp [estimateCaloriesPOST, processImageAndEstimateCalories, h1, h2,
          ht, hu, hv, exclusiveEnvelope]
      | ok rr =>
        simp [estimateCaloriesPOST, processImageAndEstimateCalories, h1, h2,
          ht, hu, hv, exclusiveEnvelope]
  · by_cases hk : denv.apiKeySet = false
    · simp [directEstimatePOST, hk, exclusiveEnvelope]
    by_cases hp : denv.jsonParseOk = false
    · simp [directEstimatePOST, hk, hp, exclusiveEnvelope]
    by_cases h1 : image.length = 0
    · simp [directEstimatePOST, hk, hp, h1, exclusiveEnvelope]
    by_cases h2 : MAX_IMAGE_SIZE < estimatedBinarySize image.length
    · simp [directEstimatePOST, hk, hp, h1, h2, exclusiveEnvelope]
    by_cases ht : denv.timedOut = true
    · simp [directEstimatePOST, hk, hp, h1, h2, ht, exclusiveEnvelope]
    cases hv : denv.vision with
    | error m =>
      simp [directEstimatePOST, processDirectEstimation, hk, hp, h1, h2, ht,
        hv, exclusiveEnvelope]
    | ok rr =>
      simp [directEstimatePOST, processDirectEstimation, hk, hp, h1, h2, ht,
        hv, exclusiveEnvelope]

/-- C7 witness: a succeeding run has populated data and null error; a
failing direct-route response carries an error and no data. -/
theorem envelope_exclusive_witness :
    ((((handleApiError (Except.ok sampleEstimation)).1.isSome = true ∧
        (handleApiError (Except.ok sampleEstimation)).2 = none) ∨
      ((handleApiError (Except.ok sampleEstimation)).1 = none ∧
        (handleApiError (Except.ok sampleEstimation)).2.isSome = true))) ∧
    exclusiveEnvelope (directEstimatePOST "" sampleDirectEnv).success
      (directEstimatePOST "" sampleDirectEnv).data
      (directEstimatePOST "" sampleDirectEnv).error := by
  constructor
  · exact (envelope_exclusive (Except.ok sampleEstimation) ""
      sampleEnv sampleDirectEnv).1
  · exact (envelope_exclusive (Except.ok sampleEstimation) ""
      sampleEnv sampleDirectEnv).2.2

instance (r : CalorieEstimationResult) : Decidable (validEstimationResult r) := by
  unfold validEstimationResult
  infer_instance

/-- Any populated data of a direct-route response is the parsed vision JSON
with the placeholder URL attached — no field is validated or changed. -/
theorem directEstimate_data_shape (image : String) (denv : DirectEnv)
    (d : CalorieEstimation)
    (hd : (directEstimatePOST image denv).data = some d) :
    ∃ r, denv.vision = Except.ok r ∧
      d = ⟨r.calories, r.foodItems, r.confidence, directPlaceholderUrl⟩ := by
  by_cases hk : denv.apiKeySet = false
  · simp [directEstimatePOST, hk] at hd
  by_cases hp : denv.jsonParseOk = false
  · simp [directEstimatePOST, hk, hp] at hd
  by_cases h1 : image.length = 0
  · simp [directEstimatePOST, hk, hp, h1] at hd
  by_cases h2 : MAX_IMAGE_SIZE < estimatedBinarySize image.length
  · simp [directEstimatePOST, hk, hp, h1, h2] at hd
  by_cases ht : denv.timedOut = true
  · simp [directEstimatePOST, hk, hp, h1, h2, ht] at hd
  cases hv : denv.vision with
  | error m =>
    simp [directEstimatePOST, processDirectEstimation, hk, hp, h1, h2, ht,
      hv] at hd
  | ok r =>
    refine ⟨r, rfl, ?_⟩
    simp [directEstimatePOST, processDirectEstimation, hk, hp, h1, h2, ht,
      hv] at hd
    exact hd.symm

/-- Any populated data of an estimate-calories response is the parsed vision
JSON with the uploaded URL attached. -/
theorem estimateCalories_data_shape (image : String) (env : RouteEnv)
    (d : CalorieEstimation)
    (hd : (estimateCaloriesPOST image env).data = some d) :
    ∃ r url, env.vision = Except.ok r ∧ env.upload = Except.ok url ∧
      d = ⟨r.calories, r.foodItems, r.confidence, url⟩ := by
  by_cases h1 : image.length = 0
  · simp [estimateCaloriesPOST, h1] at hd
  by_cases h2 : MAX_IMAGE_SIZE < estimatedBinarySize image.length
  · simp [estimateCaloriesPOST, h1, h2] at hd
  by_cases ht : env.timedOut = true
  · simp [estimateCaloriesPOST, h1, h2, ht] at hd
  cases hu : env.upload with
  | error m =>
    simp [estimateCaloriesPOST, processImageAndEstimateCalories, h1, h2,
      ht, hu] at hd
  | ok url =>
    cases hv : env.vision with
    | error m =>
      simp [estimateCaloriesPOST, processImageAndEstimateCalories, h1, h2,
        ht, hu, hv] at hd
    | ok r =>
      refine ⟨r, url, rfl, rfl, ?_⟩
      simp [estimateCaloriesPOST, processImageAndEstimateCalories, h1, h2,
        ht, hu, hv] at hd
      exact hd.symm

/-- A parsed vision answer violating the schema: negative calories, empty
food list, confidence 2. -/
def badResult : CalorieEstimationResult := ⟨-100, [], 2⟩

/-- A direct-route request whose OpenAI oracle returns `badResult`. -/
def badVisionEnv : DirectEnv := ⟨true, false, false, true, .ok badResult, false⟩

/-- C6 counterexample: when the vision collaborator returns JSON violating
the schema, the route still answers `{success:true}` and its data is not a
structurally valid `CalorieEstimation` — nothing validates the parsed
fields. -/
theorem invalid_schema_passthrough :
    (directEstimatePOST "img" badVisionEnv).success = true ∧
    (directEstimatePOST "img" badVisionEnv).data =
      some ⟨-100, [], 2, directPlaceholderUrl⟩ ∧
    ¬ validCalorieEstimation ⟨-100, [], 2, directPlaceholderUrl⟩ := by
  refine ⟨rfl, rfl, ?_⟩
  decide

/-- C6 (amended): successful route responses preserve the collaborator
fields unvalidated and attach a non-empty image URL, so the data is a
structurally valid `CalorieEstimation` whenever the vision collaborator's
parsed JSON satisfies the schema (and, for the legacy route, the uploaded
URL is non-empty; the direct route's placeholder URL is a non-empty
literal). -/
theorem success_data_schema (image : String) (env : RouteEnv)
    (denv : DirectEnv) (d : CalorieEstimation) :
    ((∀ r, denv.vision = Except.ok r → validEstimationResult r) →
      (directEstimatePOST image denv).data = some d →
      validCalorieEstimation d) ∧
    ((∀ r, env.vision = Except.ok r → validEstimationResult r) →
      (∀ url, env.upload = Except.ok url → url ≠ "") →
      (estimateCaloriesPOST image env).data = some d →
      validCalorieEstimation d) := by
  constructor
  · intro hv hd
    obtain ⟨r, hr, rfl⟩ := directEstimate_data_shape image denv d hd
    obtain ⟨hc, hcf0, hcf1, hfi⟩ := hv r hr
    exact ⟨hc, hcf0, hcf1, hfi, (by decide : directPlaceholderUrl ≠ "")⟩
  · intro hv hu hd
    obtain ⟨r, url, hr, hup, rfl⟩ := estimateCalories_data_shape image env d hd
    obtain ⟨hc, hcf0, hcf1, hfi⟩ := hv r hr
    exact ⟨hc, hcf0, hcf1, hfi, hu url hup⟩

/-- C6 witness: a schema-valid vision answer through the direct route yields
a structurally valid estimation. -/
theorem success_data_schema_witness :
    validCalorieEstimation ⟨450, [sampleItem], 4/5, directPlaceholderUrl⟩ := by
  refine (success_data_schema "img" sampleEnv sampleDirectEnv _).1 ?_ rfl
  intro r hr
  injection hr with h
  subst h
  norm_num [validEstimationResult, sampleResult, sampleItem]

/-- A decode failure whose fallback re-read also fails. -/
def decodeFailEnv : CompressEnv :=
  ⟨500000, 1000, false, false, true, false, true, true, false,
    "origbase64", "compressedbase64"⟩

/-- A decode failure whose fallback re-read succeeds. -/
def decodeFallbackEnv : CompressEnv :=
  ⟨500000, 1000, false, false, true, false, true, true, true,
    "origbase64", "compressedbase64"⟩

/-- A run where the canvas context is unavailable. -/
def canvasCtxFailEnv : CompressEnv :=
  ⟨500000, 1000, false, false, true, true, false, true, true,
    "origbase64", "compressedbase64"⟩

/-- A run where the canvas operations fail. -/
def canvasOpsFailEnv : CompressEnv :=
  ⟨500000, 1000, false, false, true, true, true, false, true,
    "origbase64", "compressedbase64"⟩

/-- C8 counterexample: a decode failure does not always resolve with the
original encoding — the `img.onerror` handler delegates to
`fileToBase64(file).then(resolve).catch(reject)`, so when that re-read fails
the promise rejects. -/
theorem compress_decode_can_reject :
    decodeFailEnv.imgDecodes = false ∧
    compressImage decodeFailEnv 800 (4/5) =
      .error (.plainError "Error reading file") := by
  exact ⟨rfl, rfl⟩

/-- C8 (amended): a decode failure resolves with the original uncompressed
encoding whenever the fallback re-read succeeds (and rejects only when that
re-read itself fails); an unavailable canvas context or failing canvas
operations always resolve with the original encoding. -/
theorem compress_fallback_resolves_original (env : CompressEnv)
    (mw : Nat) (q : Rat) :
    (env.readOk = true → env.imgDecodes = false → env.fallbackReadOk = true →
      compressImage env mw q = .ok env.original) ∧
    (env.readOk = true → env.imgDecodes = true → env.canvasCtxOk = false →
      compressImage env mw q = .ok env.original) ∧
    (env.readOk = true → env.imgDecodes = true → env.canvasOpsOk = false →
      compressImage env mw q = .ok env.original) := by
  refine ⟨?_, ?_, ?_⟩
  · intro h1 h2 h3
    simp [compressImage, h1, h2, h3]
  · intro h1 h2 h3
    by_cases hsmall : env.imgWidth ≤
        (if env.isIOS then min mw 500
          else if env.isMobile then min mw 600 else mw) ∧
        env.fileSize < 300000 ∧ env.isMobile = false
    · simp [compressImage, h1, h2, h3, hsmall]
    · simp [compressImage, h1, h2, h3, hsmall]
  · intro h1 h2 h3
    by_cases hsmall : env.imgWidth ≤
        (if env.isIOS then min mw 500
          else if env.isMobile then min mw 600 else mw) ∧
        env.fileSize < 300000 ∧ env.isMobile = false
    · obtain ⟨hw, hf, hm⟩ := hsmall
      simp [hm] at hw
      simp [compressImage, h1, h2, hm, hw, hf]
    · by_cases hctx : env.canvasCtxOk = false
      · simp [compressImage, h1, h2, hctx, hsmall]
      · simp [compressImage, h1, h2, h3, hctx, hsmall]

/-- C8 witness: the three fallback branches at concrete environments. -/
theorem compress_fallback_witness :
    compressImage decodeFallbackEnv 800 (4/5) = .ok "origbase64" ∧
    compressImage canvasCtxFailEnv 800 (4/5) = .ok "origbase64" ∧
    compressImage canvasOpsFailEnv 800 (4/5) = .ok "origbase64" := by
  refine ⟨?_, ?_, ?_⟩
  · exact (compress_fallback_resolves_original decodeFallbackEnv 800
      (4/5)).1 rfl rfl rfl
  · exact (compress_fallback_resolves_original canvasCtxFailEnv 800
      (4/5)).2.1 rfl rfl rfl
  · exact (compress_fallback_resolves_original canvasOpsFailEnv 800
      (4/5)).2.2 rfl rfl rfl

/-- A list is a prefix of itself followed by anything. -/
theorem isPrefixOf_append (a b : List Char) : a.isPrefixOf (a ++ b) = true := by
  induction a with
  | nil => simp
  | cons c rest ih => simp [List.isPrefixOf_cons₂, ih]

/-- The normalization output always carries the `data:image/` marker. -/
theorem normalize_startsWith (s : String) :
    jsStartsWith (normalizeImageData s) "data:image/" = true := by
  by_cases h : jsStartsWith s "data:image/" = true
  · simp [normalizeImageData, h]
  · simp only [normalizeImageData, h, if_false, Bool.false_eq_true]
    unfold jsStartsWith
    rw [String.data_append]
    have hsplit : "data:image/jpeg;base64,".data =
        "data:image/".data ++ "jpeg;base64,".data := rfl
    rw [hsplit, List.append_assoc]
    exact isPrefixOf_append _ _

/-- An input already carrying the marker is returned unchanged. -/
theorem normalize_of_startsWith (s : String)
    (h : jsStartsWith s "data:image/" = true) :
    normalizeImageData s = s := by
  simp [normalizeImageData, h]

/-- C10: the data-URI normalization always yields a string beginning with
`data:image/`; inputs already carrying the marker are unchanged; bare
inputs get `data:image/jpeg;base64,` prepended after the (necessarily
no-op, since a matching input would carry the marker) regex strip; and the
normalization is idempotent. -/
theorem normalize_image_data_spec (s : String) :
    jsStartsWith (normalizeImageData s) "data:image/" = true ∧
    (jsStartsWith s "data:image/" = true → normalizeImageData s = s) ∧
    (jsStartsWith s "data:image/" = false →
      normalizeImageData s = "data:image/jpeg;base64," ++ jsStripDataUri s) ∧
    normalizeImageData (normalizeImageData s) = normalizeImageData s := by
  refine ⟨normalize_startsWith s, normalize_of_startsWith s, ?_, ?_⟩
  · intro h
    simp [normalizeImageData, h]
  · exact normalize_of_startsWith _ (normalize_startsWith s)

/-- C10 witness: a marker-carrying input is unchanged; a bare input gets the
JPEG marker prepended. -/
theorem normalize_image_data_witness :
    normalizeImageData "data:image/png;base64,iVBOR" =
      "data:image/png;base64,iVBOR" ∧
    normalizeImageData "iVBORbase" =
      "data:image/jpeg;base64," ++ jsStripDataUri "iVBORbase" := by
  constructor
  · exact (normalize_image_data_spec "data:image/png;base64,iVBOR").2.1
      (by decide)
  · exact (normalize_image_data_spec "iVBORbase").2.2.1 (by decide)

/-- C9 witness: the shape theorem at a concrete outcome sequence. -/
theorem trailing_throw_unreachable_witness :
    (∃ d, (estimateCaloriesClient fun _ => okOutcome).1 =
      ClientResult.ok d) ∨
    (∃ m st, (estimateCaloriesClient fun _ => okOutcome).1 =
      ClientResult.apiErr m st) :=
  trailing_throw_unreachable fun _ => okOutcome
